import Mathlib

/-!
Shallow embedding of `src/session.go` from the gmqtt repository: the per-client
session flow-control engine (in-flight queue, backlog message queue,
await-release queue, and the packet-identifier allocator), together with
theorems settling the frozen claims about it.

Go `container/list` lists are embedded as Lean `List`s (front = head).
The `int64` counters of the session are embedded as `Int`.  Packet
identifiers (`packets.PacketID`, a 16-bit unsigned integer per the spec
glossary: "a 16-bit non-zero value") are embedded as `Nat` with arithmetic
taken modulo 2^16 where the source increments them.  External side effects
(the `OnMsgDropped` / `OnAcked` hooks and `deliverMsg`) are embedded as extra
output components describing the argument each callback would receive; the
hooks themselves do not touch session state.
-/

namespace Gmqtt

/-- QoS constant from pkg/packets: at most once. -/
def QOS_0 : Nat := 0

/-- QoS constant from pkg/packets: at least once. -/
def QOS_1 : Nat := 1

/-- QoS constant from pkg/packets: exactly once. -/
def QOS_2 : Nat := 2

/-- Smallest packet identifier, from pkg/packets. -/
def MIN_PACKET_ID : Nat := 1

/-- Largest packet identifier, from pkg/packets. -/
def MAX_PACKET_ID : Nat := 65535

/-- Embedding of `packets.Publish`: the fields this core reads (`Qos`,
`PacketID`) plus abstract stand-ins for the wire content so that distinct
messages stay distinguishable. -/
structure Publish where
  Qos : Nat
  PacketID : Nat
  TopicName : Nat
  Payload : Nat
  Retain : Bool
  deriving DecidableEq

/-- Embedding of the session configuration bounds read by session.go
(`config.MaxInflight`, `config.MaxAwaitRel`, `config.MaxMsgQueue`);
0 means unbounded. -/
structure Config where
  MaxInflight : Nat
  MaxAwaitRel : Nat
  MaxMsgQueue : Nat
  deriving DecidableEq

/-- Embedding of `inflightElem` (source field `at` is spelled `entryAt`,
`at` being reserved in Lean). -/
structure inflightElem where
  entryAt : Nat
  pid : Nat
  packet : Publish
  deriving DecidableEq

/-- Embedding of `awaitRelElem` (source field `at` spelled `entryAt`). -/
structure awaitRelElem where
  entryAt : Nat
  pid : Nat
  deriving DecidableEq

/-- Embedding of the `session` struct.  The Go maps
`lockedPid map[packets.PacketID]bool` and `unackpublish` are embedded as
total functions with default `false` (a Go map read of a missing key yields
the zero value `false`). -/
structure Session where
  inflight : List inflightElem
  inflightLen : Int
  awaitRel : List awaitRelElem
  awaitRelLen : Int
  msgQueue : List Publish
  msgQueueLen : Int
  subscriptionsCount : Int
  msgDroppedTotal : Int
  msgDeliveredTotal : Int
  unackpublish : Nat → Bool
  lockedPid : Nat → Bool
  freePid : Nat
  config : Config

/-- The acknowledgment packets `unsetInflight` switches on.  `Pubcomp` is
listed in the source comment but has no case in the type switch. -/
inductive Packet where
  | Puback (PacketID : Nat)
  | Pubrec (PacketID : Nat)
  | Pubcomp (PacketID : Nat)
  deriving DecidableEq

/-- Modelled from the spec: `client.addMsgDroppedTotal` is defined outside
src/session.go; per the spec ("Report as dropped = increment the session's
dropped-message counter ... exactly once per eviction") it adds its argument
to `msgDroppedTotal`. -/
def addMsgDroppedTotal (s : Session) (n : Int) : Session :=
  { s with msgDroppedTotal := s.msgDroppedTotal + n }

/-- Embedding of `session.freePacketID`: set `lockedPid[id] = false`. -/
def freePacketID (s : Session) (id : Nat) : Session :=
  { s with lockedPid := fun p => if p = id then false else s.lockedPid p }

/-- Embedding of `session.setPacketID`: set `lockedPid[id] = true`. -/
def setPacketID (s : Session) (id : Nat) : Session :=
  { s with lockedPid := fun p => if p = id then true else s.lockedPid p }

/-- One cursor step from `getPacketID`: `s.freePid++` on a 16-bit value,
followed by the source's wrap check
`if s.freePid > packets.MAX_PACKET_ID { s.freePid = packets.MIN_PACKET_ID }`.
Because the increment is 16-bit, the post-increment value never exceeds
65535 and the check is dead code: the actual wrap is 65535 to 0. -/
def pidStep (p : Nat) : Nat :=
  let q := (p + 1) % 65536
  if q > MAX_PACKET_ID then MIN_PACKET_ID else q

/-- The scan loop of `getPacketID` (`for s.lockedPid[s.freePid] { ... }`),
with explicit fuel: the source loop is unbounded and spins forever when
every identifier is locked; fuel 65536 covers the whole 16-bit orbit, and
exhaustion (`none`) embeds that divergence. -/
def scanFreePid (locked : Nat → Bool) : Nat → Nat → Option Nat
  | 0, _ => none
  | fuel + 1, p => if locked p then scanFreePid locked fuel (pidStep p) else some p

/-- Embedding of `session.getPacketID`: advance the cursor past locked
identifiers, return the first free one, and leave the cursor one past it.
Note the source holds only a read lock and never writes `lockedPid`:
the returned identifier is not marked in-use here. -/
def getPacketID (s : Session) : Option (Nat × Session) :=
  match scanFreePid s.lockedPid 65536 s.freePid with
  | none => none
  | some id => some (id, { s with freePid := pidStep id })

/-- The scan in the full branch of `msgEnQueue`: first element with
`Qos == QOS_0`, from the front. -/
def findQos0 : List Publish → Option Publish
  | [] => none
  | pub :: rest => if pub.Qos = QOS_0 then some pub else findQos0 rest

/-- Embedding of `client.msgEnQueue`.  The second component is the message
the `OnMsgDropped` hook receives (`none` when nothing is dropped).
Tracing the source when the queue is full:
case 1 (a QOS_0 element exists in the queue) sets `removeMsg` and logs
"removing msg" but never calls `s.msgQueue.Remove(removeMsg)`, so the
element stays in the list; case 2 (incoming message is QOS_0) returns before
the final `PushBack`; case 3 removes the front.  `msgQueueLen` is only
incremented in the not-full branch. -/
def msgEnQueue (s : Session) (publish : Publish) : Session × Option Publish :=
  if s.msgQueue.length ≥ s.config.MaxMsgQueue ∧ s.config.MaxMsgQueue ≠ 0 then
    let s1 := addMsgDroppedTotal s 1
    match findQos0 s1.msgQueue with
    | some dropped =>
      ({ s1 with msgQueue := s1.msgQueue ++ [publish] }, some dropped)
    | none =>
      if publish.Qos = QOS_0 then
        (s1, some publish)
      else
        ({ s1 with msgQueue := s1.msgQueue.tail ++ [publish] }, s1.msgQueue.head?)
  else
    ({ s with msgQueue := s.msgQueue ++ [publish],
              msgQueueLen := s.msgQueueLen + 1 }, none)

/-- Embedding of `client.msgDequeue`: pop the front of the backlog, or
return `none` when it is empty. -/
def msgDequeue (s : Session) : Session × Option Publish :=
  match s.msgQueue with
  | [] => (s, none)
  | m :: rest =>
    ({ s with msgQueue := rest, msgQueueLen := s.msgQueueLen - 1 }, some m)

/-- Embedding of `client.setInflight`.  Components: the new session, the
`enqueue` return value, and the message the `OnMsgDropped` hook would
receive when the call spills into a full backlog. -/
def setInflight (s : Session) (publish : Publish) (now : Nat) :
    Session × Bool × Option Publish :=
  if s.inflight.length ≥ s.config.MaxInflight ∧ s.config.MaxInflight ≠ 0 then
    let r := msgEnQueue s publish
    (r.1, false, r.2)
  else
    ({ s with inflightLen := s.inflightLen + 1,
              inflight := s.inflight ++
                [{ entryAt := now, pid := publish.PacketID, packet := publish }] },
      true, none)

/-- The per-element acceptance test of the `unsetInflight` loop.  For
`Puback` the element must be QoS 1 (else `continue`), for `Pubrec` QoS 2;
for `Pubcomp` the type switch has no case, so the local variable `pid`
keeps its zero value 0 and any element with `pid == 0` matches. -/
def ackMatch (packet : Packet) (el : inflightElem) : Bool :=
  match packet with
  | .Puback p => el.packet.Qos == QOS_1 && el.pid == p
  | .Pubrec p => el.packet.Qos == QOS_2 && el.pid == p
  | .Pubcomp _ => el.pid == 0

/-- The value the local variable `pid` holds when a match is found. -/
def ackPid : Packet → Nat
  | .Puback p => p
  | .Pubrec p => p
  | .Pubcomp _ => 0

/-- The value the local variable `freeID` holds when a match is found:
only the `Puback` case sets it. -/
def ackFreesID : Packet → Bool
  | .Puback _ => true
  | .Pubrec _ => false
  | .Pubcomp _ => false

/-- Remove the first element of the in-flight list accepted by
`ackMatch`, returning it and the remaining list. -/
def removeFirstAck (packet : Packet) :
    List inflightElem → Option (inflightElem × List inflightElem)
  | [] => none
  | el :: rest =>
    if ackMatch packet el then some (el, rest)
    else
      match removeFirstAck packet rest with
      | none => none
      | some (m, r) => some (m, el :: r)

/-- Result of `unsetInflight`: the new session, the message the `OnAcked`
hook receives (the acknowledged record's packet), and the message handed
to `deliverMsg` (the promoted backlog message, when one exists). -/
structure UnsetInflightResult where
  s : Session
  acked : Option Publish
  delivered : Option Publish

/-- Embedding of `client.unsetInflight`.  On a match: remove the record,
decrement `inflightLen`, free the identifier only on the `Puback` path,
then dequeue the oldest backlog message and, if there is one, push a new
in-flight record for it and deliver it.  The source pushes that promoted
record without any `AddInt64` on `inflightLen`.  No match: fall off the
loop, changing nothing. -/
def unsetInflight (s : Session) (packet : Packet) (now : Nat) :
    UnsetInflightResult :=
  match removeFirstAck packet s.inflight with
  | none => { s := s, acked := none, delivered := none }
  | some (el, rest) =>
    let s1 : Session := { s with inflight := rest, inflightLen := s.inflightLen - 1 }
    let s2 : Session :=
      if ackFreesID packet then freePacketID s1 (ackPid packet) else s1
    let r := msgDequeue s2
    match r.2 with
    | none => { s := r.1, acked := some el.packet, delivered := none }
    | some publish =>
      { s := { r.1 with inflight := r.1.inflight ++
                 [{ entryAt := now, pid := publish.PacketID, packet := publish }] },
        acked := some el.packet,
        delivered := some publish }

/-- Embedding of `client.setAwaitRel`: when the queue is at or above a
non-zero bound, remove the front element (no counter adjustment, no hook);
then always push the new element and increment `awaitRelLen`. -/
def setAwaitRel (s : Session) (pid : Nat) (now : Nat) : Session :=
  let s1 : Session :=
    if s.awaitRel.length ≥ s.config.MaxAwaitRel ∧ s.config.MaxAwaitRel ≠ 0 then
      { s with awaitRel := s.awaitRel.tail }
    else s
  { s1 with awaitRel := s1.awaitRel ++ [{ entryAt := now, pid := pid }],
            awaitRelLen := s1.awaitRelLen + 1 }

/-- Remove the first await-release element with the given identifier. -/
def removeFirstAwait (pid : Nat) : List awaitRelElem → Option (List awaitRelElem)
  | [] => none
  | el :: rest =>
    if el.pid = pid then some rest
    else
      match removeFirstAwait pid rest with
      | none => none
      | some r => some (el :: r)

/-- Embedding of `client.unsetAwaitRel`: on the first element with a
matching identifier, remove it, decrement `awaitRelLen` and free the
identifier; otherwise do nothing. -/
def unsetAwaitRel (s : Session) (pid : Nat) : Session :=
  match removeFirstAwait pid s.awaitRel with
  | none => s
  | some rest =>
    freePacketID
      { s with awaitRel := rest, awaitRelLen := s.awaitRelLen - 1 } pid

/-- Fold a sequence of `setInflight` calls (the "for all sequences of
admit calls" quantification of the spec). -/
def setInflightSeq (now : Nat) : Session → List Publish → Session
  | s, [] => s
  | s, m :: rest => setInflightSeq now (setInflight s m now).1 rest

/-- A fresh session with the given configuration (lists empty, counters
zero, no identifier locked, cursor at `MIN_PACKET_ID`). -/
def emptySession (c : Config) : Session :=
  { inflight := [], inflightLen := 0, awaitRel := [], awaitRelLen := 0,
    msgQueue := [], msgQueueLen := 0, subscriptionsCount := 0,
    msgDroppedTotal := 0, msgDeliveredTotal := 0,
    unackpublish := fun _ => false, lockedPid := fun _ => false,
    freePid := MIN_PACKET_ID, config := c }

/-! Concrete configurations, messages and session states used by the
counterexamples and witnesses below. -/

/-- Every bound set to 1. -/
def cfg111 : Config := { MaxInflight := 1, MaxAwaitRel := 1, MaxMsgQueue := 1 }

/-- Window 1, backlog and await-release unbounded. -/
def cfg1 : Config := { MaxInflight := 1, MaxAwaitRel := 0, MaxMsgQueue := 0 }

/-- Window 1, backlog bound 1, await-release unbounded. -/
def c8cfg : Config := { MaxInflight := 1, MaxAwaitRel := 0, MaxMsgQueue := 1 }

/-- A QoS0 message. -/
def qos0Msg : Publish :=
  { Qos := 0, PacketID := 10, TopicName := 0, Payload := 0, Retain := false }

/-- A QoS1 message. -/
def qos1Msg : Publish :=
  { Qos := 1, PacketID := 11, TopicName := 0, Payload := 1, Retain := false }

/-- QoS1 message A (pid 1). -/
def msgA : Publish :=
  { Qos := 1, PacketID := 1, TopicName := 0, Payload := 100, Retain := false }

/-- QoS1 message B (pid 2). -/
def msgB : Publish :=
  { Qos := 1, PacketID := 2, TopicName := 0, Payload := 200, Retain := false }

/-- QoS1 message C (pid 3). -/
def msgC : Publish :=
  { Qos := 1, PacketID := 3, TopicName := 0, Payload := 300, Retain := false }

/-- A QoS0 message with pid 3. -/
def qos0C : Publish :=
  { Qos := 0, PacketID := 3, TopicName := 0, Payload := 300, Retain := false }

/-- Backlog at its bound 1, holding one QoS0 message. -/
def c2State : Session :=
  { emptySession cfg111 with msgQueue := [qos0Msg], msgQueueLen := 1 }

/-- Allocator cursor at 65535, which is the only locked identifier. -/
def c1State : Session :=
  { emptySession cfg1 with freePid := 65535, lockedPid := fun p => p == 65535 }

/-- Allocator cursor at 1, identifier 1 locked. -/
def c1wState : Session :=
  { emptySession cfg1 with lockedPid := fun p => p == 1 }

/-- After admitting A into an empty window-1 session. -/
def c4s1 : Session := (setInflight (emptySession cfg1) msgA 0).1

/-- After also offering B (spilled to the backlog). -/
def c4s2 : Session := (setInflight c4s1 msgB 1).1

/-- After also offering C (spilled to the backlog behind B). -/
def c4s3 : Session := (setInflight c4s2 msgC 2).1

/-- A QoS1 message with pid 5. -/
def qos1Pid5 : Publish :=
  { Qos := 1, PacketID := 5, TopicName := 0, Payload := 0, Retain := false }

/-- One QoS1 in-flight record (pid 5) and one await-release record (pid 7),
both identifiers locked. -/
def c5State : Session :=
  { emptySession cfg1 with
    inflight := [{ entryAt := 0, pid := 5, packet := qos1Pid5 }],
    inflightLen := 1,
    awaitRel := [{ entryAt := 0, pid := 7 }], awaitRelLen := 1,
    lockedPid := fun p => p == 5 || p == 7 }

/-- Await-release queue at its bound 1, holding the record for pid 9. -/
def c6State : Session :=
  { emptySession cfg111 with
    awaitRel := [{ entryAt := 0, pid := 9 }], awaitRelLen := 1 }

/-- As `c6State`, with the queued identifier 9 marked in-use. -/
def c10State : Session := { c6State with lockedPid := fun p => p == 9 }

/-- Window 1 full with A, backlog (bound 1) full with B. -/
def c8s2 : Session :=
  (setInflight ((setInflight (emptySession c8cfg) msgA 0).1) msgB 1).1

/-! Helper lemmas about the embedded operations. -/

/-- A successful scan returns an unlocked identifier, and it is the first
unlocked one on the cursor's forward orbit: some number `k` of `pidStep`
moves reaches it and every earlier position on the orbit is locked. -/
theorem scanFreePid_spec (locked : Nat → Bool) :
    ∀ fuel p id : Nat, scanFreePid locked fuel p = some id →
      locked id = false ∧
      ∃ k, id = pidStep^[k] p ∧
        ∀ j < k, locked (pidStep^[j] p) = true := by
  intro fuel
  induction fuel with
  | zero => intro p id h; simp [scanFreePid] at h
  | succ n ih =>
    intro p id h
    by_cases hp : locked p
    · have h2 : scanFreePid locked n (pidStep p) = some id := by
        simpa [scanFreePid, hp] using h
      obtain ⟨hfree, k, hk, hall⟩ := ih (pidStep p) id h2
      refine ⟨hfree, k + 1, ?_, ?_⟩
      · rw [Function.iterate_succ_apply]; exact hk
      · intro j hj
        cases j with
        | zero => simpa using hp
        | succ j =>
          rw [Function.iterate_succ_apply]
          exact hall j (Nat.lt_of_succ_lt_succ hj)
    · have h2 : p = id := by simpa [scanFreePid, hp] using h
      subst h2
      refine ⟨by simpa using hp, 0, rfl, ?_⟩
      intro j hj
      omega

/-- `msgDequeue` leaves the identifier table alone. -/
theorem msgDequeue_lockedPid (s : Session) :
    (msgDequeue s).1.lockedPid = s.lockedPid := by
  unfold msgDequeue
  cases h : s.msgQueue <;> simp

/-- `msgDequeue` leaves the dropped-message counter alone. -/
theorem msgDequeue_msgDroppedTotal (s : Session) :
    (msgDequeue s).1.msgDroppedTotal = s.msgDroppedTotal := by
  unfold msgDequeue
  cases h : s.msgQueue <;> simp

/-- `msgEnQueue` never touches the in-flight queue. -/
theorem msgEnQueue_inflight (s : Session) (publish : Publish) :
    (msgEnQueue s publish).1.inflight = s.inflight := by
  unfold msgEnQueue addMsgDroppedTotal
  split
  · dsimp only
    split
    · simp
    · split <;> simp
  · simp

/-- `msgEnQueue` never touches the configuration. -/
theorem msgEnQueue_config (s : Session) (publish : Publish) :
    (msgEnQueue s publish).1.config = s.config := by
  unfold msgEnQueue addMsgDroppedTotal
  split
  · dsimp only
    split
    · simp
    · split <;> simp
  · simp

/-- The dropped-message counter after `msgEnQueue`: incremented by exactly
one when the call hits a full bounded queue, unchanged otherwise. -/
theorem msgEnQueue_msgDroppedTotal (s : Session) (publish : Publish) :
    (msgEnQueue s publish).1.msgDroppedTotal =
      if s.msgQueue.length ≥ s.config.MaxMsgQueue ∧ s.config.MaxMsgQueue ≠ 0
      then s.msgDroppedTotal + 1 else s.msgDroppedTotal := by
  unfold msgEnQueue addMsgDroppedTotal
  split
  · dsimp only
    split
    · simp
    · split <;> simp
  · simp

/-- `setInflight` never touches the configuration. -/
theorem setInflight_config (s : Session) (publish : Publish) (now : Nat) :
    (setInflight s publish now).1.config = s.config := by
  unfold setInflight
  split
  · simpa using msgEnQueue_config s publish
  · simp

/-- `setAwaitRel` leaves the dropped-message counter alone: the eviction
branch touches only the `awaitRel` list. -/
theorem setAwaitRel_msgDroppedTotal (s : Session) (pid now : Nat) :
    (setAwaitRel s pid now).msgDroppedTotal = s.msgDroppedTotal := by
  unfold setAwaitRel
  split <;> simp

/-- `unsetAwaitRel` leaves the dropped-message counter alone. -/
theorem unsetAwaitRel_msgDroppedTotal (s : Session) (pid : Nat) :
    (unsetAwaitRel s pid).msgDroppedTotal = s.msgDroppedTotal := by
  unfold unsetAwaitRel
  cases h : removeFirstAwait pid s.awaitRel <;> simp [freePacketID]

/-- `unsetInflight` leaves the dropped-message counter alone: removal,
identifier release, backlog dequeue and promotion never change it. -/
theorem unsetInflight_msgDroppedTotal (s : Session) (packet : Packet) (now : Nat) :
    (unsetInflight s packet now).s.msgDroppedTotal = s.msgDroppedTotal := by
  unfold unsetInflight
  cases h : removeFirstAck packet s.inflight with
  | none => simp
  | some pr =>
    dsimp only
    split <;>
      simp [msgDequeue_msgDroppedTotal, freePacketID] <;>
      split <;> simp [msgDequeue_msgDroppedTotal]

/-- A `Pubrec` acknowledgment never changes the identifier table, whether
or not it matches: `freeID` is only ever set on the `Puback` path. -/
theorem unsetInflight_Pubrec_lockedPid (s : Session) (pid now : Nat) :
    (unsetInflight s (Packet.Pubrec pid) now).s.lockedPid = s.lockedPid := by
  unfold unsetInflight
  cases h : removeFirstAck (Packet.Pubrec pid) s.inflight with
  | none => simp
  | some pr =>
    obtain ⟨el, rest⟩ := pr
    dsimp only [ackFreesID]
    split <;> simp [msgDequeue_lockedPid]

/-- Admitting a message into a window already at a non-zero bound keeps
the in-flight list unchanged (the message is delegated to the backlog),
and otherwise appends one record, so the window bound is preserved. -/
theorem setInflight_bound (s : Session) (publish : Publish) (now : Nat)
    (hw : s.config.MaxInflight ≠ 0)
    (hlen : s.inflight.length ≤ s.config.MaxInflight) :
    (setInflight s publish now).1.inflight.length ≤ s.config.MaxInflight := by
  unfold setInflight
  split
  · dsimp only
    rw [msgEnQueue_inflight]
    exact hlen
  · rename_i hnotfull
    dsimp only
    have hlt : ¬ s.inflight.length ≥ s.config.MaxInflight :=
      fun hge => hnotfull ⟨hge, hw⟩
    simp only [List.length_append, List.length_cons, List.length_nil]
    omega

/-- The window bound is preserved by any sequence of `setInflight` calls. -/
theorem setInflightSeq_bound (now : Nat) (msgs : List Publish) :
    ∀ s : Session, s.config.MaxInflight ≠ 0 →
      s.inflight.length ≤ s.config.MaxInflight →
      (setInflightSeq now s msgs).inflight.length ≤ s.config.MaxInflight := by
  induction msgs with
  | nil => intro s _ hlen; exact hlen
  | cons m rest ih =>
    intro s hw hlen
    have hcfg := setInflight_config s m now
    have h1 := setInflight_bound s m now hw hlen
    have h2 := ih (setInflight s m now).1
      (by rw [hcfg]; exact hw) (by rw [hcfg]; exact h1)
    rw [hcfg] at h2
    simpa [setInflightSeq] using h2

/-- Enqueueing into a backlog that is not full appends at the tail. -/
theorem msgEnQueue_msgQueue_notfull (s : Session) (publish : Publish)
    (h : ¬(s.msgQueue.length ≥ s.config.MaxMsgQueue ∧ s.config.MaxMsgQueue ≠ 0)) :
    (msgEnQueue s publish).1.msgQueue = s.msgQueue ++ [publish] := by
  unfold msgEnQueue
  rw [if_neg h]

/-! The claims. -/

/-- Claim C1, counterexample.  With the cursor at 65535 and 65535 the only
in-use identifier, `getPacketID` skips 65535 and returns identifier 0: the
16-bit increment wraps 65535 to 0, not to 1 (the explicit wrap-to-1 check
compares the already-wrapped value and never fires), and the returned
identifier is not marked in-use in the identifier table when the call
returns. -/
theorem C1_counterexample :
    (getPacketID c1State).map Prod.fst = some 0 ∧
    (getPacketID c1State).map (fun r => r.2.lockedPid 0) = some false := by
  constructor
  · decide
  · decide

/-- Claim C1 as amended: the identifier returned by `getPacketID` is the
first identifier not marked in-use on the cursor's cyclic forward orbit
(16-bit wraparound, 65535 to 0), the cursor ends one step past it, and the
identifier table is left completely unchanged: the returned identifier is
not marked in-use by the call. -/
theorem C1_allocate_scan (s s2 : Session) (id : Nat)
    (h : getPacketID s = some (id, s2)) :
    s.lockedPid id = false ∧
    s2.lockedPid = s.lockedPid ∧
    s2.freePid = pidStep id ∧
    ∃ k, id = pidStep^[k] s.freePid ∧
      ∀ j < k, s.lockedPid (pidStep^[j] s.freePid) = true := by
  unfold getPacketID at h
  cases hscan : scanFreePid s.lockedPid 65536 s.freePid with
  | none => rw [hscan] at h; exact Option.noConfusion h
  | some id0 =>
    rw [hscan] at h
    simp only [Option.some.injEq, Prod.mk.injEq] at h
    obtain ⟨h1, h2⟩ := h
    subst h1
    subst h2
    obtain ⟨hfree, k, hk, hall⟩ :=
      scanFreePid_spec s.lockedPid 65536 s.freePid id0 hscan
    exact ⟨hfree, rfl, rfl, k, hk, hall⟩

/-- Claim C1 witness: with identifier 1 in use and the cursor at 1, the
allocator skips 1 and returns 2, which is free, unmarked, and one
`pidStep` along the orbit. -/
theorem C1_allocate_scan_witness :
    c1wState.lockedPid 2 = false ∧
    ({ c1wState with freePid := 3 } : Session).lockedPid = c1wState.lockedPid ∧
    ({ c1wState with freePid := 3 } : Session).freePid = pidStep 2 ∧
    ∃ k, 2 = pidStep^[k] c1wState.freePid ∧
      ∀ j < k, c1wState.lockedPid (pidStep^[j] c1wState.freePid) = true :=
  C1_allocate_scan c1wState { c1wState with freePid := 3 } 2 (by rfl)

/-- Claim C2: on enqueue into the full backlog `[qos0Msg]` (bound 1), the
code reports the QoS0 entry as dropped (hook argument and counter) and
appends the incoming QoS1 message, but never removes the QoS0 entry from
the queue: the resulting queue is `[qos0Msg, qos1Msg]`, contradicting the
claimed tier-1 removal (the source sets `removeMsg` and logs "removing
msg" in case 1 but has no `Remove` call there). -/
theorem C2_qos0_entry_not_removed :
    c2State.config.MaxMsgQueue = 1 ∧
    c2State.msgQueue = [qos0Msg] ∧
    (msgEnQueue c2State qos1Msg).2 = some qos0Msg ∧
    (msgEnQueue c2State qos1Msg).1.msgDroppedTotal = c2State.msgDroppedTotal + 1 ∧
    (msgEnQueue c2State qos1Msg).1.msgQueue = [qos0Msg, qos1Msg] := by
  refine ⟨by decide, by decide, by decide, by decide, by decide⟩

/-- Claim C3: after the same enqueue as in C2 returns, the backlog holds 2
entries while the configured bound is 1, so the bound is exceeded after
`msgEnQueue` returns, not just transiently inside the eviction decision. -/
theorem C3_backlog_bound_exceeded :
    c2State.config.MaxMsgQueue = 1 ∧
    (msgEnQueue c2State qos1Msg).1.msgQueue.length = 2 := by
  refine ⟨by decide, by decide⟩

/-- Claim C4: with window size 1, messages A, B, C admitted in order (A
admitted, B and C spilled to the backlog in order), acknowledging A with a
`Puback` promotes and transmits B, never C, and appends the new record at
the tail, but the tracked in-flight length `inflightLen` is not
incremented for the promoted record: it reads 0 while one record is in
flight. -/
theorem C4_promote_without_len_increment :
    (setInflight (emptySession cfg1) msgA 0).2.1 = true ∧
    (setInflight c4s1 msgB 1).2.1 = false ∧
    (setInflight c4s2 msgC 2).2.1 = false ∧
    c4s3.msgQueue = [msgB, msgC] ∧
    (unsetInflight c4s3 (Packet.Puback 1) 3).delivered = some msgB ∧
    (unsetInflight c4s3 (Packet.Puback 1) 3).s.inflight.map
      (fun e => e.packet) = [msgB] ∧
    (unsetInflight c4s3 (Packet.Puback 1) 3).s.msgQueue = [msgC] ∧
    (unsetInflight c4s3 (Packet.Puback 1) 3).s.inflightLen = 0 := by
  refine ⟨by decide, by decide, by decide, by decide, by decide, by decide,
    by decide, by decide⟩

/-- Claim C5: acknowledging a QoS1 in-flight record with a `Puback` frees
its identifier in the identifier table at once; a `Pubrec` acknowledgment
leaves the table untouched (matching or not); the identifier of a QoS2
exchange is freed when `unsetAwaitRel` retires it from the await-release
queue. -/
theorem C5_qos_release_asymmetry (s : Session) (pid now : Nat) :
    (removeFirstAck (Packet.Puback pid) s.inflight ≠ none →
      (unsetInflight s (Packet.Puback pid) now).s.lockedPid pid = false) ∧
    (unsetInflight s (Packet.Pubrec pid) now).s.lockedPid = s.lockedPid ∧
    (removeFirstAwait pid s.awaitRel ≠ none →
      (unsetAwaitRel s pid).lockedPid pid = false) := by
  refine ⟨?_, unsetInflight_Pubrec_lockedPid s pid now, ?_⟩
  · intro hne
    cases h : removeFirstAck (Packet.Puback pid) s.inflight with
    | none => exact absurd h hne
    | some pr =>
      obtain ⟨el, rest⟩ := pr
      unfold unsetInflight
      rw [h]
      dsimp only [ackFreesID, ackPid]
      split <;> simp [msgDequeue_lockedPid, freePacketID]
  · intro hne
    cases h : removeFirstAwait pid s.awaitRel with
    | none => exact absurd h hne
    | some rest =>
      unfold unsetAwaitRel
      rw [h]
      simp [freePacketID]

/-- Claim C5 witness: a QoS1 record with pid 5 acknowledged by `Puback 5`
ends unlocked; `Pubrec 5` leaves the table unchanged; retiring pid 7 from
the await-release queue unlocks it. -/
theorem C5_qos_release_asymmetry_witness :
    (unsetInflight c5State (Packet.Puback 5) 1).s.lockedPid 5 = false ∧
    (unsetInflight c5State (Packet.Pubrec 5) 1).s.lockedPid = c5State.lockedPid ∧
    (unsetAwaitRel c5State 7).lockedPid 7 = false :=
  ⟨(C5_qos_release_asymmetry c5State 5 1).1 (by decide),
   (C5_qos_release_asymmetry c5State 5 1).2.1,
   (C5_qos_release_asymmetry c5State 7 1).2.2 (by decide)⟩

/-- Claim C6, counterexample.  `setAwaitRel` into the full await-release
queue of `c6State` (bound 1) evicts the head record for pid 9 — the queue
afterwards holds only the new record — yet the session's dropped-message
counter is unchanged: not every eviction increments the counter. -/
theorem C6_awaitrel_eviction_uncounted :
    c6State.config.MaxAwaitRel = 1 ∧
    c6State.awaitRel = [{ entryAt := 0, pid := 9 }] ∧
    (setAwaitRel c6State 10 1).awaitRel = [{ entryAt := 1, pid := 10 }] ∧
    (setAwaitRel c6State 10 1).msgDroppedTotal = c6State.msgDroppedTotal := by
  refine ⟨by decide, by decide, by decide, by decide⟩

/-- Claim C6 as amended: a `msgEnQueue` call that hits a full bounded
backlog increments the dropped-message counter by exactly 1 and any other
`msgEnQueue` call leaves it unchanged; an await-release eviction in
`setAwaitRel` does not change the counter at all; and no session operation
ever decreases the counter. -/
theorem C6_drop_counter (s : Session) (publish : Publish) (pid now : Nat)
    (packet : Packet) :
    (s.msgQueue.length ≥ s.config.MaxMsgQueue ∧ s.config.MaxMsgQueue ≠ 0 →
      (msgEnQueue s publish).1.msgDroppedTotal = s.msgDroppedTotal + 1) ∧
    (¬(s.msgQueue.length ≥ s.config.MaxMsgQueue ∧ s.config.MaxMsgQueue ≠ 0) →
      (msgEnQueue s publish).1.msgDroppedTotal = s.msgDroppedTotal) ∧
    (setAwaitRel s pid now).msgDroppedTotal = s.msgDroppedTotal ∧
    s.msgDroppedTotal ≤ (msgEnQueue s publish).1.msgDroppedTotal ∧
    s.msgDroppedTotal ≤ (msgDequeue s).1.msgDroppedTotal ∧
    s.msgDroppedTotal ≤ (setInflight s publish now).1.msgDroppedTotal ∧
    s.msgDroppedTotal ≤ (unsetInflight s packet now).s.msgDroppedTotal ∧
    s.msgDroppedTotal ≤ (unsetAwaitRel s pid).msgDroppedTotal ∧
    s.msgDroppedTotal ≤ (setAwaitRel s pid now).msgDroppedTotal := by
  have hq := msgEnQueue_msgDroppedTotal s publish
  refine ⟨?_, ?_, setAwaitRel_msgDroppedTotal s pid now, ?_, ?_, ?_, ?_, ?_, ?_⟩
  · intro hc; rw [hq, if_pos hc]
  · intro hc; rw [hq, if_neg hc]
  · rw [hq]; split <;> omega
  · simp [msgDequeue_msgDroppedTotal]
  · unfold setInflight
    split
    · dsimp only
      rw [msgEnQueue_msgDroppedTotal]
      split <;> omega
    · simp
  · simp [unsetInflight_msgDroppedTotal]
  · simp [unsetAwaitRel_msgDroppedTotal]
  · simp [setAwaitRel_msgDroppedTotal]

/-- Claim C6 witness: a full-backlog enqueue increments the counter by 1,
a non-full enqueue leaves it unchanged, an await-release enqueue leaves
it unchanged, and an acknowledgment does not decrease it. -/
theorem C6_drop_counter_witness :
    (msgEnQueue c2State qos1Msg).1.msgDroppedTotal = c2State.msgDroppedTotal + 1 ∧
    (msgEnQueue (emptySession cfg1) qos1Msg).1.msgDroppedTotal =
      (emptySession cfg1).msgDroppedTotal ∧
    (setAwaitRel c2State 3 0).msgDroppedTotal = c2State.msgDroppedTotal ∧
    c2State.msgDroppedTotal ≤
      (unsetInflight c2State (Packet.Puback 9) 0).s.msgDroppedTotal :=
  ⟨(C6_drop_counter c2State qos1Msg 3 0 (Packet.Puback 9)).1 (by decide),
   (C6_drop_counter (emptySession cfg1) qos1Msg 3 0 (Packet.Puback 9)).2.1
     (by decide),
   (C6_drop_counter c2State qos1Msg 3 0 (Packet.Puback 9)).2.2.1,
   (C6_drop_counter c2State qos1Msg 3 0 (Packet.Puback 9)).2.2.2.2.2.2.1⟩

/-- Claim C7: enqueueing pid 10 into the full await-release queue of
`c6State` (bound 1, tracked length 1) evicts the head and appends the new
record, leaving the list at length 1, but the tracked `awaitRelLen` is
still incremented to 2 — the eviction is never subtracted — so the
tracked await-release length exceeds the configured bound after the call
returns. -/
theorem C7_awaitrel_len_exceeds_bound :
    c6State.config.MaxAwaitRel = 1 ∧
    c6State.awaitRelLen = 1 ∧
    (setAwaitRel c6State 10 1).awaitRel.length = 1 ∧
    (setAwaitRel c6State 10 1).awaitRelLen = 2 := by
  refine ⟨by decide, by decide, by decide, by decide⟩

/-- Claim C8, counterexample.  With window 1 (holding A) and backlog
bound 1 (holding B), offering the QoS0 message `qos0C` refuses admission
(`enqueue = false`) but the message is not found in the backlog either:
the full-backlog eviction policy discards the incoming QoS0 message
itself. -/
theorem C8_refused_message_dropped :
    (setInflight c8s2 qos0C 2).2.1 = false ∧
    (setInflight c8s2 qos0C 2).1.msgQueue = [msgB] ∧
    (setInflight c8s2 qos0C 2).1.inflight.map (fun e => e.packet) = [msgA] := by
  refine ⟨by decide, by decide, by decide⟩

/-- Claim C8 as amended: with a non-zero window size the in-flight list
length never exceeds the window across any sequence of `setInflight`
calls; a message offered while the window is full is refused
(`enqueue = false`) and handed to the backlog enqueue, which appends it at
the tail whenever the backlog is below its bound or unbounded (refused
messages may instead be dropped by the eviction policy when the backlog is
full). -/
theorem C8_window_bound (s : Session) (msgs : List Publish) (publish : Publish)
    (now : Nat) (hw : s.config.MaxInflight ≠ 0)
    (hlen : s.inflight.length ≤ s.config.MaxInflight) :
    (setInflightSeq now s msgs).inflight.length ≤ s.config.MaxInflight ∧
    (s.inflight.length ≥ s.config.MaxInflight →
      (setInflight s publish now).2.1 = false ∧
      (¬(s.msgQueue.length ≥ s.config.MaxMsgQueue ∧ s.config.MaxMsgQueue ≠ 0) →
        (setInflight s publish now).1.msgQueue = s.msgQueue ++ [publish])) := by
  refine ⟨setInflightSeq_bound now msgs s hw hlen, ?_⟩
  intro hfull
  have hc : s.inflight.length ≥ s.config.MaxInflight ∧ s.config.MaxInflight ≠ 0 :=
    ⟨hfull, hw⟩
  constructor
  · unfold setInflight
    rw [if_pos hc]
  · intro hnf
    unfold setInflight
    rw [if_pos hc]
    dsimp only
    exact msgEnQueue_msgQueue_notfull s publish hnf

/-- Claim C8 witness: starting from the window-1 session holding A with an
unbounded backlog, admitting B then C keeps the in-flight length within
the window; offering B while full is refused and B is appended to the
backlog tail. -/
theorem C8_window_bound_witness :
    (setInflightSeq 5 c4s1 [msgB, msgC]).inflight.length ≤
      c4s1.config.MaxInflight ∧
    (setInflight c4s1 msgB 5).2.1 = false ∧
    (setInflight c4s1 msgB 5).1.msgQueue = c4s1.msgQueue ++ [msgB] := by
  have h := C8_window_bound c4s1 [msgB, msgC] msgB 5 (by decide) (by decide)
  exact ⟨h.1, (h.2 (by decide)).1, (h.2 (by decide)).2 (by decide)⟩

/-- Claim C9: an acknowledgment whose identifier matches no in-flight
record of the packet's kind, and a retirement whose identifier is absent
from the await-release queue, are complete no-ops: the entire session
state — queues, counters and identifier table — is returned unchanged and
no error is possible. -/
theorem C9_unmatched_ack_noop (s : Session) (packet : Packet) (pid now : Nat)
    (h1 : removeFirstAck packet s.inflight = none)
    (h2 : removeFirstAwait pid s.awaitRel = none) :
    unsetInflight s packet now = { s := s, acked := none, delivered := none } ∧
    unsetAwaitRel s pid = s := by
  constructor
  · unfold unsetInflight
    rw [h1]
  · unfold unsetAwaitRel
    rw [h2]

/-- Claim C9 witness: `Puback 99` matches nothing in `c5State` (its only
record has pid 5) and pid 99 is absent from its await-release queue, so
both calls return the state unchanged. -/
theorem C9_unmatched_ack_noop_witness :
    unsetInflight c5State (Packet.Puback 99) 1 =
      { s := c5State, acked := none, delivered := none } ∧
    unsetAwaitRel c5State 99 = c5State :=
  C9_unmatched_ack_noop c5State (Packet.Puback 99) 99 1 (by decide) (by decide)

/-- Claim C10: `setAwaitRel` never modifies the identifier table — in
particular, when it evicts the head of a full queue the evicted record's
identifier is not freed and stays marked in-use. -/
theorem C10_setAwaitRel_frame (s : Session) (pid now : Nat)
    (e : awaitRelElem) (es : List awaitRelElem)
    (hq : s.awaitRel = e :: es)
    (hfull : s.awaitRel.length ≥ s.config.MaxAwaitRel)
    (hnz : s.config.MaxAwaitRel ≠ 0)
    (hlocked : s.lockedPid e.pid = true) :
    (setAwaitRel s pid now).lockedPid = s.lockedPid ∧
    (setAwaitRel s pid now).awaitRel = es ++ [{ entryAt := now, pid := pid }] ∧
    (setAwaitRel s pid now).lockedPid e.pid = true := by
  have hc : s.awaitRel.length ≥ s.config.MaxAwaitRel ∧ s.config.MaxAwaitRel ≠ 0 :=
    ⟨hfull, hnz⟩
  unfold setAwaitRel
  rw [if_pos hc]
  refine ⟨rfl, ?_, hlocked⟩
  dsimp only
  rw [hq]
  rfl

/-- Claim C10 witness: evicting the head record (pid 9, marked in-use)
from the full queue of `c10State` leaves the identifier table unchanged
and pid 9 still marked in-use. -/
theorem C10_setAwaitRel_frame_witness :
    (setAwaitRel c10State 10 1).lockedPid = c10State.lockedPid ∧
    (setAwaitRel c10State 10 1).awaitRel = [] ++ [{ entryAt := 1, pid := 10 }] ∧
    (setAwaitRel c10State 10 1).lockedPid 9 = true :=
  C10_setAwaitRel_frame c10State 10 1 { entryAt := 0, pid := 9 } []
    (by decide) (by decide) (by decide) (by decide)

end Gmqtt
